import Mathlib

/-!
Verification of the network reconciliation plugin (src/src/network.c) as a
shallow embedding.  C structures become Lean structures, intrusive-list
traversal becomes List folds, out-parameters become explicit state records,
and each fallible external call is a parameter of the embedding (an Option
result: some on success, none on failure).  Comments next to each definition
name the C function and the lines it embeds.
-/

/-- Sysrepo success return code SR_ERR_OK (value 0). -/
def SR_ERR_OK : Int := 0

/-- UCI success return code UCI_OK (value 0). -/
def UCI_OK : Int := 0

/-- Address origin vocabulary, the enumeration behind ip_v4.origin
(spec section 3: static, dhcp, link-layer, random, other, unknown). -/
inductive Origin
  | static
  | dhcp
  | linkLayer
  | random
  | other
  | unknown
  deriving DecidableEq

/-- Modelled from the spec: string_to_origin (declared in the shared headers,
which are not under src/) maps the textual origin representation to the
enumeration; the Origin invariant of spec section 3 requires a bidirectional
mapping over the six members. -/
def string_to_origin (s : String) : Origin :=
  if s = "static" then Origin.static
  else if s = "dhcp" then Origin.dhcp
  else if s = "link-layer" then Origin.linkLayer
  else if s = "random" then Origin.random
  else if s = "other" then Origin.other
  else Origin.unknown

/-- Modelled from the spec: origin_to_string, the textual representation of
an Origin used when writing the UCI origin option. -/
def origin_to_string : Origin → String
  | Origin.static => "static"
  | Origin.dhcp => "dhcp"
  | Origin.linkLayer => "link-layer"
  | Origin.random => "random"
  | Origin.other => "other"
  | Origin.unknown => "unknown"

/-- Single IPv4 address of an interface: the ip string plus the prefix
length (struct ip_v4 field address, with subnet.prefix_length flattened). -/
structure Ipv4Addr where
  ip : String
  prefix_length : Nat
  deriving DecidableEq

/-- IPv4 attribute set of one interface (struct ip_v4). -/
structure IpV4 where
  enabled : Bool
  forwarding : Bool
  origin : Origin
  mtu : Nat
  address : Ipv4Addr
  deriving DecidableEq

/-- One interface record (struct if_interface): the name, the UCI section
identifier resolved by find_interface_type (field type, null until
resolved), and the embedded IPv4 attribute set. -/
structure IfInterface where
  name : String
  type : Option String
  ipv4 : IpV4
  deriving DecidableEq

/-- make_interface_ipv4 (network.c lines 18-35): calloc zero-initialises
every field of the record and of its ip_v4, then enabled is set to true.
The zero value of the origin enumeration is its first member. -/
def make_interface_ipv4 (name : String) : IfInterface :=
  { name := name,
    type := none,
    ipv4 :=
      { enabled := true,
        forwarding := false,
        origin := Origin.static,
        mtu := 0,
        address := { ip := "", prefix_length := 0 } } }

/-- One route attribute of a netlink link message: either an IFLA_IFNAME
attribute carrying the interface name, or an attribute of any other type. -/
inductive RtAttr
  | ifname (name : String)
  | other
  deriving DecidableEq

/-- Name carried by an attribute, when it is an IFLA_IFNAME attribute. -/
def rtattr_name : RtAttr → Option String
  | RtAttr.ifname n => some n
  | RtAttr.other => none

/-- ls_interfaces_cb (lines 39-61): walks the attributes of one link
message; every IFLA_IFNAME attribute creates a record with
make_interface_ipv4 and inserts it with list_add.  Modelled from the spec:
the intrusive list API lives in shared headers not under src/, and the spec
states that the order of insertion follows kernel response order (records in
the order first seen), so list_add is modelled as inserting the new record
at the tail of the registry.  The source performs no check whether a record
with the same name is already present. -/
def ls_interfaces_cb (attrs : List RtAttr) (interfaces : List IfInterface) : List IfInterface :=
  attrs.foldl
    (fun acc hdr =>
      match hdr with
      | RtAttr.ifname n => acc ++ [make_interface_ipv4 n]
      | RtAttr.other => acc)
    interfaces

/-- ls_interfaces (lines 160-173): sends the dump-all-links request and runs
ls_interfaces_cb on every response message, starting from the empty
registry. -/
def ls_interfaces (msgs : List (List RtAttr)) : List IfInterface :=
  msgs.foldl (fun acc msg => ls_interfaces_cb msg acc) []

/-- All IFLA_IFNAME names of a response sequence, in the order received. -/
def msg_ifnames (msgs : List (List RtAttr)) : List String :=
  msgs.flatten.filterMap rtattr_name

/-- Ephemeral neighbor record (struct neighbor_v4): a link-layer address
plus an IP address. -/
structure NeighborV4 where
  link_layer_address : String
  ip : String
  deriving DecidableEq

/-- One entry of the kernel neighbor cache as observed by the callback:
rtnl_neigh_get_lladdr and rtnl_neigh_get_dst may each return null. -/
structure NlNeigh where
  lladdr : Option String
  dst : Option String
  deriving DecidableEq

/-- neighbor_get_addr_cb (lines 65-84): returns without writing when either
address is missing (SR_CHECK_NULL_RETURN_VOID; modelled from the spec:
partial entries are silently skipped); otherwise it overwrites both fields
of the single shared output record.  The embedding records the two address
strings; in C both fields alias one stack buffer of the callback. -/
def neighbor_get_addr_cb (plugin_neigh : NeighborV4) (neigh : NlNeigh) : NeighborV4 :=
  match neigh.lladdr with
  | none => plugin_neigh
  | some l =>
    match neigh.dst with
    | none => plugin_neigh
    | some d => { link_layer_address := l, ip := d }

/-- neighbor_get_addr (lines 88-110): nl_cache_foreach over the snapshot,
every entry processed by neighbor_get_addr_cb against the same record. -/
def neighbor_get_addr (cache : List NlNeigh) (neighbor : NeighborV4) : NeighborV4 :=
  cache.foldl neighbor_get_addr_cb neighbor

/-- Pair of addresses of a cache entry when both are present. -/
def completePair (n : NlNeigh) : Option (String × String) :=
  match n.lladdr, n.dst with
  | some l, some d => some (l, d)
  | _, _ => none

/-- Last complete (link-layer, ip) pair of a cache, when one exists. -/
def lastComplete : List NlNeigh → Option (String × String)
  | [] => none
  | n :: rest =>
    match lastComplete rest with
    | some p => some p
    | none => completePair n

/-- Per-attribute datastore queries issued by sysrepo_to_model, each keyed
by the interface name and answering some value on SR_ERR_OK and none on any
other return of sr_get_item (item not found included).  The two address
queries are keyed by the interface name as well: the second sprintf of each
block substitutes the interface name into the address predicate of the
path (lines 383-384 and 391-392, the format holds a single placeholder). -/
structure Datastore where
  enabled_q : String → Option Bool
  forwarding_q : String → Option Bool
  origin_q : String → Option String
  mtu_q : String → Option Nat
  name_q : String → Option String
  addr_ip_q : String → Option String
  addr_prefix_q : String → Option Nat

/-- Per-interface body of sysrepo_to_model (lines 332-401).  Each attribute
block queries the datastore and overwrites the field only when the query
succeeds (rc equal to SR_ERR_OK); on any failure the field keeps its current
value, which Option.getD expresses exactly.  The origin value goes through
string_to_origin (line 360).  The name leaf is queried and logged but never
stored back (the assignment on line 377 is commented out). -/
def pull_iface (ds : Datastore) (iface : IfInterface) : IfInterface :=
  let p0 := iface.ipv4
  let p1 := { p0 with enabled := (ds.enabled_q iface.name).getD p0.enabled }
  let p2 := { p1 with forwarding := (ds.forwarding_q iface.name).getD p1.forwarding }
  let p3 := { p2 with origin := ((ds.origin_q iface.name).map string_to_origin).getD p2.origin }
  let p4 := { p3 with mtu := (ds.mtu_q iface.name).getD p3.mtu }
  let p5 := { p4 with address := { p4.address with ip := (ds.addr_ip_q iface.name).getD p4.address.ip } }
  let p6 := { p5 with address := { p5.address with prefix_length := (ds.addr_prefix_q iface.name).getD p5.address.prefix_length } }
  { iface with ipv4 := p6 }

/-- sysrepo_to_model (lines 314-405): updates every interface of the
registry from the datastore and always returns SR_ERR_OK (its final
statement, line 404). -/
def sysrepo_to_model (ds : Datastore) (ifaces : List IfInterface) : Int × List IfInterface :=
  (SR_ERR_OK, ifaces.map (pull_iface ds))

/-- Backend option names: the four options the plugin writes, the two it
reads from the datastore but never writes back (forwarding and the prefix
length), and arbitrary further backend options. -/
inductive UciOpt
  | operstate
  | origin
  | mtu
  | ipaddr
  | forwarding
  | prefix_length
  | extra (name : String)
  deriving DecidableEq

/-- Value written into a backend option. -/
inductive UciVal
  | b (x : Bool)
  | n (x : Nat)
  | s (x : String)
  deriving DecidableEq

/-- One backend write: section, option, value. -/
structure UciWrite where
  sec : String
  opt : UciOpt
  val : UciVal
  deriving DecidableEq

/-- Per-interface body of model_to_uci (lines 417-442): records whose type
is unresolved are skipped; otherwise set_operstate, set_origin, set_mtu and
set_ip4 are called, in this order.  Modelled from the spec: each set_ helper
(scripts.h, not under src/) writes the single named option of the given
section.  The forwarding and prefix-length writes are commented out in the
source (lines 427 and 439). -/
def apply_iface_uci (iface : IfInterface) : List UciWrite :=
  match iface.type with
  | none => []
  | some t =>
    [⟨t, UciOpt.operstate, UciVal.b iface.ipv4.enabled⟩,
     ⟨t, UciOpt.origin, UciVal.s (origin_to_string iface.ipv4.origin)⟩,
     ⟨t, UciOpt.mtu, UciVal.n iface.ipv4.mtu⟩,
     ⟨t, UciOpt.ipaddr, UciVal.s iface.ipv4.address.ip⟩]

/-- model_to_uci (lines 409-448): emits the writes of every interface and
returns rc, which is initialised to UCI_OK and never reassigned. -/
def model_to_uci (ifaces : List IfInterface) : Int × List UciWrite :=
  (UCI_OK, (ifaces.map apply_iface_uci).flatten)

/-- Modelled from the spec: the backend is a store of string-valued options
per section (spec section 6, configuration-store boundary). -/
def UciState := String → UciOpt → Option UciVal

/-- Modelled from the spec: one set_ call stores its value under its section
and option and leaves every other cell unchanged. -/
def apply_write (st : UciState) (w : UciWrite) : UciState :=
  fun sec o => if sec = w.sec ∧ o = w.opt then some w.val else st sec o

/-- Sequential application of a write list to the backend. -/
def apply_writes (st : UciState) (ws : List UciWrite) : UciState :=
  ws.foldl apply_write st

/-- Sysrepo change notification events (sr_notif_event_t as used here). -/
inductive SrEvent
  | verify
  | apply
  | abort
  deriving DecidableEq

/-- Observable outcome of one module_change_cb invocation: the return code,
the in-memory registry afterwards, the UCI writes performed, and the delays
passed to restart_network, in call order. -/
structure CbOutcome where
  rc : Int
  ifaces : List IfInterface
  writes : List UciWrite
  restarts : List Nat
  deriving DecidableEq

/-- module_change_cb (lines 218-252) with its two callees as parameters.  A
verify event returns SR_ERR_OK at once (lines 229-232); every other event
runs the pull step and then the push step.  Modelled from the spec:
SR_CHECK_RET and UCI_CHECK_RET (common headers, not under src/) log and jump
to the exit label when the code differs from the success code, so a failing
step returns its code to the caller, skips the remaining steps and the
restart, and performs no compensating rollback.  When both steps succeed,
restart_network is called exactly once, outside any interface loop, with
the configured delay RESTART_TIME_TO_WAIT (line 245). -/
def module_change_gen (event : SrEvent)
    (pull : List IfInterface → Int × List IfInterface)
    (push : List IfInterface → Int × List UciWrite)
    (delay : Nat) (ifaces : List IfInterface) : CbOutcome :=
  if event = SrEvent.verify then
    ⟨SR_ERR_OK, ifaces, [], []⟩
  else
    let r1 := pull ifaces
    if r1.1 ≠ SR_ERR_OK then ⟨r1.1, r1.2, [], []⟩
    else
      let r2 := push r1.2
      if r2.1 ≠ UCI_OK then ⟨r2.1, r1.2, r2.2, []⟩
      else ⟨SR_ERR_OK, r1.2, r2.2, [delay]⟩

/-- module_change_cb applied to its actual callees sysrepo_to_model and
model_to_uci. -/
def module_change_cb (ds : Datastore) (event : SrEvent) (delay : Nat)
    (ifaces : List IfInterface) : CbOutcome :=
  module_change_gen event (sysrepo_to_model ds) model_to_uci delay ifaces

/-- Observable actions of one process after the fork in restart_network. -/
inductive ProcAction
  | logMsg (msg : String)
  | sleepFor (secs : Nat)
  | execv (path : String) (args : List String)
  deriving DecidableEq

/-- restart_network (lines 180-194), per process.  Under POSIX fork, the
parent of a successful fork observes the positive child pid, the child
observes 0, and a failed fork yields a negative value in the sole process.
The branch guarded by restart_pid greater than 0 - taken by the PARENT of a
successful fork - logs, sleeps wait_time seconds and then execs the restart
command, replacing the calling process (the exit after execv runs only when
execv itself fails).  Every other process, the child included, takes the
else branch and only logs. -/
def restart_network (wait_time : Nat) (fork_result : Int) : List ProcAction :=
  if 0 < fork_result then
    [ProcAction.logMsg "Restarting network after module is changed",
     ProcAction.sleepFor wait_time,
     ProcAction.execv "/etc/init.d/network" ["/etc/init.d/network", "restart"]]
  else
    [ProcAction.logMsg "Could not execute network restart, do it manually?"]

/-- Type tags of the values built by data_provider_cb. -/
inductive SrType
  | identityref
  | enum_t
  | str
  | u16
  | u32
  | u64
  deriving DecidableEq

/-- Payload of one value built by data_provider_cb. -/
inductive SrData
  | s (x : String)
  | n (x : Nat)
  deriving DecidableEq

/-- One value produced by data_provider_cb: the interface name and node
suffix of its path, its type tag and its payload. -/
structure SrVal where
  ifname : String
  node : String
  type : SrType
  data : SrData
  deriving DecidableEq

/-- Results of the external command queries run by data_provider_cb through
str_from_cmd and int_from_cmd: some output on success, none when the command
fails, in which case the local variable keeps its prior content.  The
commands are keyed by ctx key, not by the interface being iterated. -/
structure CmdEnv where
  enabled_out : Option String
  mac_out : Option String
  speed_out : Option Nat
  tx_out : Option Nat
  tx_err_out : Option Nat
  rx_out : Option Nat
  rx_err_out : Option Nat
  mtu_out : Option Nat
  deriving DecidableEq

/-- Values of the interface branch (lines 597-647): fixed type identity,
oper-status, phys-address and speed.  The oper-status buffer starts zeroed;
the phys-address query reuses the same buffer, so on failure it retains the
oper-status string. -/
def interface_vals (env : CmdEnv) (if_name : String) : List SrVal :=
  let buf1 := env.enabled_out.getD ""
  let buf2 := env.mac_out.getD buf1
  [⟨if_name, "type", SrType.identityref, SrData.s "ethernetCsmacd"⟩,
   ⟨if_name, "oper-status", SrType.enum_t, SrData.s buf1⟩,
   ⟨if_name, "phys-address", SrType.str, SrData.s buf2⟩,
   ⟨if_name, "speed", SrType.u64, SrData.n (env.speed_out.getD 0)⟩]

/-- Values of the statistics branch (lines 649-690): the four counters in
the order out-octets, out-errors, in-octets, in-errors; every counter
variable is initialised to 0 and the return of int_from_cmd is ignored, so a
failed query leaves the counter at 0. -/
def stats_vals (env : CmdEnv) (if_name : String) : List SrVal :=
  [⟨if_name, "statistics/out-octets", SrType.u64, SrData.n (env.tx_out.getD 0)⟩,
   ⟨if_name, "statistics/out-errors", SrType.u32, SrData.n (env.tx_err_out.getD 0)⟩,
   ⟨if_name, "statistics/in-octets", SrType.u64, SrData.n (env.rx_out.getD 0)⟩,
   ⟨if_name, "statistics/in-errors", SrType.u32, SrData.n (env.rx_err_out.getD 0)⟩]

/-- Value of the ipv4 branch (lines 692-709): the current MTU, truncated to
unsigned 16 bit. -/
def ipv4_val (env : CmdEnv) (if_name : String) : SrVal :=
  ⟨if_name, "statistics/ipv4/mtu", SrType.u16, SrData.n ((env.mtu_out.getD 0) % 65536)⟩

/-- State threaded through the interface loop of data_provider_cb: the node
name of the last path written into the local xpath buffer (the buffer the
dispatch inspects), the content of the caller cell behind the values out
parameter, and the content of the caller cell behind the values_cnt out
parameter. -/
structure DpState where
  bufNode : String
  values : Option (List SrVal)
  cnt : Nat
  deriving DecidableEq

/-- One iteration of the interface loop of data_provider_cb (lines
594-718).  The dispatch calls sr_xpath_node_name_eq on the LOCAL xpath
buffer, so it tests the node name of whatever that buffer last held; each
value-producing branch then overwrites the buffer while building value
paths, leaving the node name of the last one (speed, in-errors, mtu).  Each
such branch stores 4 (or 1) into the values_cnt cell and the fresh value
array into the values cell.  The final else branch (lines 711-715) nulls
the values cell but assigns 0 to the local values_cnt POINTER, so the
values_cnt cell keeps its previous content. -/
def dp_step (env : CmdEnv) (st : DpState) (if_name : String) : DpState :=
  if st.bufNode = "interface" then
    { bufNode := "speed", values := some (interface_vals env if_name), cnt := 4 }
  else if st.bufNode = "statistics" then
    { bufNode := "in-errors", values := some (stats_vals env if_name), cnt := 4 }
  else if st.bufNode = "ipv4" then
    { bufNode := "mtu", values := some [ipv4_val env if_name], cnt := 1 }
  else
    { st with values := none }

/-- data_provider_cb (lines 578-721).  The cb_xpath parameter of the C
callback - the requested path - is never read by the body, so it is an
ignored argument here; the dispatch source is the uninitialised local xpath
buffer, whose arbitrary initial node name is the buf0 parameter.  The
callback iterates the whole registry regardless of the request, threading
the buffer and the two out cells, and returns SR_ERR_OK. -/
def data_provider_cb (cb_xpath : String) (env : CmdEnv) (if_names : List String)
    (buf0 : String) (values0 : Option (List SrVal)) (cnt0 : Nat) : Int × DpState :=
  (SR_ERR_OK, if_names.foldl (dp_step env) ⟨buf0, values0, cnt0⟩)

/-- Datastore in which every query reports item not found. -/
def ds_empty : Datastore :=
  ⟨fun _ => none, fun _ => none, fun _ => none, fun _ => none,
   fun _ => none, fun _ => none, fun _ => none⟩

/-- Interface record with mtu 1500, the merge-policy example of the spec. -/
def if_mtu1500 : IfInterface :=
  ⟨"wan", none, ⟨true, false, Origin.static, 1500, ⟨"", 0⟩⟩⟩

/-- Interface record resolved to the UCI section lan. -/
def iface_lan : IfInterface :=
  ⟨"eth0", some "lan", ⟨true, false, Origin.static, 1500, ⟨"192.168.1.1", 24⟩⟩⟩

/-- Backend state with no options set. -/
def st_empty : UciState := fun _ _ => none

/-- Command environment in which every external query fails. -/
def env_fail : CmdEnv := ⟨none, none, none, none, none, none, none, none⟩

/-- Command environment with the live counters of the spec example:
tx 100, tx errors 0, rx 50, rx errors 2. -/
def env_stats : CmdEnv := ⟨none, none, none, some 100, some 0, some 50, some 2, none⟩

/-- env_stats with the rx query failing. -/
def env_rxfail : CmdEnv := ⟨none, none, none, some 100, some 0, none, some 2, none⟩

/-- Helper: one link message appends its IFLA_IFNAME names, in order,
behind the accumulator. -/
theorem ls_interfaces_cb_eq (attrs : List RtAttr) :
    ∀ acc, ls_interfaces_cb attrs acc =
      acc ++ List.map make_interface_ipv4 (attrs.filterMap rtattr_name) := by
  induction attrs with
  | nil => intro acc; simp [ls_interfaces_cb]
  | cons hdr rest ih =>
    intro acc
    cases hdr with
    | ifname n =>
      have h1 : ls_interfaces_cb (RtAttr.ifname n :: rest) acc
          = ls_interfaces_cb rest (acc ++ [make_interface_ipv4 n]) := rfl
      rw [h1, ih]
      simp [rtattr_name, List.filterMap_cons, List.append_assoc]
    | other =>
      have h1 : ls_interfaces_cb (RtAttr.other :: rest) acc = ls_interfaces_cb rest acc := rfl
      rw [h1, ih]
      simp [rtattr_name, List.filterMap_cons]

/-- Helper: the message fold appends all names, in order, behind the
accumulator. -/
theorem ls_interfaces_fold_eq (msgs : List (List RtAttr)) :
    ∀ acc, msgs.foldl (fun acc msg => ls_interfaces_cb msg acc) acc =
      acc ++ List.map make_interface_ipv4 (msg_ifnames msgs) := by
  induction msgs with
  | nil => intro acc; simp [msg_ifnames]
  | cons m rest ih =>
    intro acc
    have h1 : (m :: rest).foldl (fun acc msg => ls_interfaces_cb msg acc) acc
        = rest.foldl (fun acc msg => ls_interfaces_cb msg acc) (ls_interfaces_cb m acc) := rfl
    rw [h1, ih, ls_interfaces_cb_eq]
    simp [msg_ifnames, List.flatten_cons, List.filterMap_append, List.map_append,
      List.append_assoc]

/-- C3 counterexample: two link dump messages both carrying the name eth0
yield a registry with two records named eth0, so discovery does not create
records only when the name is absent and the registry does not hold exactly
one record per distinct name. -/
theorem c3_counterexample :
    (ls_interfaces [[RtAttr.ifname "eth0"], [RtAttr.ifname "eth0"]]).map IfInterface.name
        = ["eth0", "eth0"]
  ∧ ((ls_interfaces [[RtAttr.ifname "eth0"], [RtAttr.ifname "eth0"]]).countP
        (fun r => r.name == "eth0") ≠ 1) := by
  constructor
  · rfl
  · decide

/-- C3 amended: after discovery the registry holds one record per
IFLA_IFNAME attribute occurrence, in the order the names were seen -
duplicates included, since there is no presence check - each record built by
make_interface_ipv4 (ipv4 enabled true). -/
theorem c3_registry_unconditional_insert (msgs : List (List RtAttr)) :
    ls_interfaces msgs = List.map make_interface_ipv4 (msg_ifnames msgs) := by
  have h := ls_interfaces_fold_eq msgs []
  simpa [ls_interfaces] using h

/-- Helper: the neighbor callback keeps the record on a partial entry and
rebuilds it from a complete one. -/
theorem neighbor_cb_eq (rec : NeighborV4) (n : NlNeigh) :
    neighbor_get_addr_cb rec n =
      match completePair n with
      | some p => ⟨p.1, p.2⟩
      | none => rec := by
  cases h1 : n.lladdr <;> cases h2 : n.dst <;>
    simp [neighbor_get_addr_cb, completePair, h1, h2]

/-- C10: neighbor discovery folds the whole cache into the one output
record; every complete entry overwrites it, an entry lacking either address
leaves it unchanged, so the final record is the last complete pair when one
exists and the initial record otherwise. -/
theorem c10_last_complete_pair_wins (cache : List NlNeigh) (rec : NeighborV4) :
    neighbor_get_addr cache rec =
      match lastComplete cache with
      | some p => ⟨p.1, p.2⟩
      | none => rec := by
  induction cache generalizing rec with
  | nil => rfl
  | cons n rest ih =>
    have h1 : neighbor_get_addr (n :: rest) rec
        = neighbor_get_addr rest (neighbor_get_addr_cb rec n) := rfl
    rw [h1, ih (neighbor_get_addr_cb rec n), neighbor_cb_eq]
    cases hl : lastComplete rest <;> cases hc : completePair n <;>
      simp [lastComplete, hl, hc]

/-- C4: merge policy of sysrepo_to_model, attribute by attribute.  For each
of enabled, forwarding, origin, mtu, address ip and address prefix length, a
successful datastore query overwrites the in-memory field (origin through
the string_to_origin conversion) and a failed query leaves it untouched. -/
theorem c4_merge_policy (ds : Datastore) (iface : IfInterface) :
    ((∀ b, ds.enabled_q iface.name = some b → (pull_iface ds iface).ipv4.enabled = b)
      ∧ (ds.enabled_q iface.name = none →
          (pull_iface ds iface).ipv4.enabled = iface.ipv4.enabled))
  ∧ ((∀ b, ds.forwarding_q iface.name = some b → (pull_iface ds iface).ipv4.forwarding = b)
      ∧ (ds.forwarding_q iface.name = none →
          (pull_iface ds iface).ipv4.forwarding = iface.ipv4.forwarding))
  ∧ ((∀ s, ds.origin_q iface.name = some s →
          (pull_iface ds iface).ipv4.origin = string_to_origin s)
      ∧ (ds.origin_q iface.name = none →
          (pull_iface ds iface).ipv4.origin = iface.ipv4.origin))
  ∧ ((∀ m, ds.mtu_q iface.name = some m → (pull_iface ds iface).ipv4.mtu = m)
      ∧ (ds.mtu_q iface.name = none → (pull_iface ds iface).ipv4.mtu = iface.ipv4.mtu))
  ∧ ((∀ s, ds.addr_ip_q iface.name = some s →
          (pull_iface ds iface).ipv4.address.ip = s)
      ∧ (ds.addr_ip_q iface.name = none →
          (pull_iface ds iface).ipv4.address.ip = iface.ipv4.address.ip))
  ∧ ((∀ k, ds.addr_prefix_q iface.name = some k →
          (pull_iface ds iface).ipv4.address.prefix_length = k)
      ∧ (ds.addr_prefix_q iface.name = none →
          (pull_iface ds iface).ipv4.address.prefix_length = iface.ipv4.address.prefix_length)) := by
  refine ⟨⟨?_, ?_⟩, ⟨?_, ?_⟩, ⟨?_, ?_⟩, ⟨?_, ?_⟩, ⟨?_, ?_⟩, ⟨?_, ?_⟩⟩ <;> intros <;>
    simp_all [pull_iface]

/-- C4 witness: the spec example - a record with mtu 1500 and a datastore
answering item not found on every query keeps mtu 1500. -/
theorem c4_witness : (pull_iface ds_empty if_mtu1500).ipv4.mtu = 1500 := by
  exact (c4_merge_policy ds_empty if_mtu1500).2.2.2.1.2 rfl

/-- C1: on an apply event, a failing pull step makes module_change_cb return
that failing code with no restart, and a failing push step after a
successful pull returns the push code while keeping the pulled registry and
the writes already performed - no compensating rollback. -/
theorem c1_step_failure_aborts (pull : List IfInterface → Int × List IfInterface)
    (push : List IfInterface → Int × List UciWrite) (delay : Nat)
    (ifaces : List IfInterface) :
    ((pull ifaces).1 ≠ SR_ERR_OK →
        module_change_gen SrEvent.apply pull push delay ifaces
          = ⟨(pull ifaces).1, (pull ifaces).2, [], []⟩)
  ∧ ((pull ifaces).1 = SR_ERR_OK → (push (pull ifaces).2).1 ≠ UCI_OK →
        module_change_gen SrEvent.apply pull push delay ifaces
          = ⟨(push (pull ifaces).2).1, (pull ifaces).2, (push (pull ifaces).2).2, []⟩) := by
  constructor
  · intro h
    simp [module_change_gen, h]
  · intro h1 h2
    simp [module_change_gen, h1, h2]

/-- C1 witness: a pull step failing with code 5 on the apply event returns
5 and schedules no restart. -/
theorem c1_witness :
    module_change_gen SrEvent.apply (fun m => ((5 : Int), m)) (fun _ => (UCI_OK, []))
        10 [] = ⟨5, [], [], []⟩ := by
  exact (c1_step_failure_aborts (fun m => ((5 : Int), m)) (fun _ => (UCI_OK, []))
    10 []).1 (by decide)

/-- C5: on a successfully applied change event the restart orchestrator is
invoked exactly once, with the configured delay, whatever the size of the
registry - the call sits after the interface loops, not inside them. -/
theorem c5_restart_exactly_once (ds : Datastore) (delay : Nat) (ifaces : List IfInterface) :
    (module_change_cb ds SrEvent.apply delay ifaces).restarts = [delay] := rfl

/-- C9: the change handler short-circuits only on verify events; an abort
event takes exactly the path of an apply event - full pull and push plus a
scheduled restart - while a verify event returns success untouched. -/
theorem c9_abort_processed_like_apply (ds : Datastore) (delay : Nat)
    (ifaces : List IfInterface) :
    module_change_cb ds SrEvent.abort delay ifaces
        = module_change_cb ds SrEvent.apply delay ifaces
  ∧ module_change_cb ds SrEvent.verify delay ifaces = ⟨SR_ERR_OK, ifaces, [], []⟩
  ∧ (module_change_cb ds SrEvent.abort delay ifaces).restarts = [delay] :=
  ⟨rfl, rfl, rfl⟩

/-- Helper: applying a write list that never touches option o leaves every
o cell of the backend unchanged. -/
theorem apply_writes_frame (o : UciOpt) (ws : List UciWrite)
    (h : ∀ w ∈ ws, w.opt ≠ o) : ∀ st sec, apply_writes st ws sec o = st sec o := by
  induction ws with
  | nil => intro st sec; rfl
  | cons w rest ih =>
    intro st sec
    have hw : w.opt ≠ o := h w (List.mem_cons_self w rest)
    have hrest : ∀ x ∈ rest, x.opt ≠ o := fun x hx => h x (List.mem_cons_of_mem w hx)
    have h1 : apply_writes st (w :: rest) sec o = apply_writes (apply_write st w) rest sec o := rfl
    rw [h1, ih hrest]
    simp [apply_write, Ne.symm hw]

/-- C8: every write emitted by model_to_uci targets one of the four options
operstate, origin, mtu, ipaddr; forwarding and prefix length are never
written, and applying the emitted writes to any backend state leaves every
forwarding and prefix-length cell unchanged. -/
theorem c8_push_writes_only_four (ifaces : List IfInterface) :
    (∀ w ∈ (model_to_uci ifaces).2,
        (w.opt = UciOpt.operstate ∨ w.opt = UciOpt.origin ∨ w.opt = UciOpt.mtu
          ∨ w.opt = UciOpt.ipaddr)
      ∧ w.opt ≠ UciOpt.forwarding ∧ w.opt ≠ UciOpt.prefix_length)
  ∧ (∀ st sec, apply_writes st (model_to_uci ifaces).2 sec UciOpt.forwarding
        = st sec UciOpt.forwarding
      ∧ apply_writes st (model_to_uci ifaces).2 sec UciOpt.prefix_length
        = st sec UciOpt.prefix_length) := by
  have hmem : ∀ w ∈ (model_to_uci ifaces).2,
      (w.opt = UciOpt.operstate ∨ w.opt = UciOpt.origin ∨ w.opt = UciOpt.mtu
        ∨ w.opt = UciOpt.ipaddr) := by
    intro w hw
    simp [model_to_uci, List.mem_flatten, List.mem_map] at hw
    obtain ⟨i, hi, hwi⟩ := hw
    cases ht : i.type with
    | none => simp [apply_iface_uci, ht] at hwi
    | some t =>
      simp [apply_iface_uci, ht] at hwi
      rcases hwi with h | h | h | h <;> subst h <;> simp
  refine ⟨?_, ?_⟩
  · intro w hw
    refine ⟨hmem w hw, ?_, ?_⟩ <;>
      rcases hmem w hw with h | h | h | h <;> rw [h] <;> decide
  · intro st sec
    constructor
    · apply apply_writes_frame
      intro w hw
      rcases hmem w hw with h | h | h | h <;> rw [h] <;> decide
    · apply apply_writes_frame
      intro w hw
      rcases hmem w hw with h | h | h | h <;> rw [h] <;> decide

/-- C8 witness: the operstate write of a resolved record is among the
emitted writes and is not a forwarding write, and the emitted writes leave a
concrete forwarding cell of an empty backend unchanged. -/
theorem c8_witness :
    (⟨"lan", UciOpt.operstate, UciVal.b true⟩ : UciWrite).opt ≠ UciOpt.forwarding
  ∧ apply_writes st_empty (model_to_uci [iface_lan]).2 "lan" UciOpt.forwarding
      = st_empty "lan" UciOpt.forwarding := by
  constructor
  · exact ((c8_push_writes_only_four [iface_lan]).1
      ⟨"lan", UciOpt.operstate, UciVal.b true⟩ (by decide)).2.1
  · exact ((c8_push_writes_only_four [iface_lan]).2 st_empty "lan").1

/-- C2: in restart_network the branch for a positive fork result is the one
with the sleep and the exec, and under POSIX fork the positive result is
observed by the PARENT - the reconciliation caller - which therefore blocks
for the whole delay and is then replaced by the restart command; the forked
child observes 0 and only logs, performing no restart.  The claim that the
restart runs out of line and the caller continues without blocking fails on
this code. -/
theorem c2_parent_blocks_and_execs :
    restart_network 10 1234
        = [ProcAction.logMsg "Restarting network after module is changed",
           ProcAction.sleepFor 10,
           ProcAction.execv "/etc/init.d/network" ["/etc/init.d/network", "restart"]]
  ∧ restart_network 10 0
        = [ProcAction.logMsg "Could not execute network restart, do it manually?"] :=
  ⟨rfl, rfl⟩

/-- C6: on the fallback branch of data_provider_cb the values cell is nulled
but the values_cnt cell keeps its prior content (the source assigns 0 to the
local pointer, not through it), so a query whose dispatch falls through -
here a stale buffer node foo with a caller cell holding 4 - does not come
back with a zero count. -/
theorem c6_count_cell_not_zeroed :
    (data_provider_cb "/ietf-interfaces:interfaces-state/foo" env_fail ["eth0"] "foo"
        (some []) 4).2.values = none
  ∧ (data_provider_cb "/ietf-interfaces:interfaces-state/foo" env_fail ["eth0"] "foo"
        (some []) 4).2.cnt = 4 :=
  ⟨rfl, rfl⟩

/-- C7: the requested path never influences the result of data_provider_cb
(first conjunct: the callback is constant in its cb_xpath argument), so a
request for node statistics with the uninitialised dispatch buffer empty
returns no values at all (second conjunct), although the statistics branch
itself, when the buffer happens to select it, does produce the four counters
in the order out-octets, out-errors, in-octets, in-errors (third conjunct,
with the spec counters 100, 0, 50, 2) and reports 0 for a failed rx query
instead of an error (fourth conjunct). -/
theorem c7_query_path_ignored :
    (∀ p q : String, ∀ env if_names buf0 values0 cnt0,
        data_provider_cb p env if_names buf0 values0 cnt0
          = data_provider_cb q env if_names buf0 values0 cnt0)
  ∧ (data_provider_cb "/ietf-interfaces:interfaces-state/interface/statistics"
        env_stats ["eth0"] "" none 0).2.values = none
  ∧ (dp_step env_stats ⟨"statistics", none, 0⟩ "eth0").values
      = some [⟨"eth0", "statistics/out-octets", SrType.u64, SrData.n 100⟩,
              ⟨"eth0", "statistics/out-errors", SrType.u32, SrData.n 0⟩,
              ⟨"eth0", "statistics/in-octets", SrType.u64, SrData.n 50⟩,
              ⟨"eth0", "statistics/in-errors", SrType.u32, SrData.n 2⟩]
  ∧ (dp_step env_rxfail ⟨"statistics", none, 0⟩ "eth0").values
      = some [⟨"eth0", "statistics/out-octets", SrType.u64, SrData.n 100⟩,
              ⟨"eth0", "statistics/out-errors", SrType.u32, SrData.n 0⟩,
              ⟨"eth0", "statistics/in-octets", SrType.u64, SrData.n 0⟩,
              ⟨"eth0", "statistics/in-errors", SrType.u32, SrData.n 2⟩] :=
  ⟨fun _ _ _ _ _ _ _ => rfl, rfl, rfl, rfl⟩
